import Mathlib

/-!
Shallow embedding of `knn-image-classifier/demos/camera.js`: a browser demo
that captures webcam frames, conditionally feeds them to an external KNN
classifier as training examples, conditionally runs prediction, and updates
per-class status texts. The external classifier library is not part of this
repository; its operations are modelled from the spec's contract (§4.3).
-/

namespace CameraDemo

/-- `const NUM_CLASSES = 3` (camera.js line 26). -/
def NUM_CLASSES : Nat := 3

/-- `const TOPK = 10` (camera.js line 29). -/
def TOPK : Nat := 10

/-- One `span` status element: its `innerText` and `style.fontWeight`. -/
structure InfoText where
  text : String
  fontWeight : String
deriving DecidableEq, Repr

/-- The state of the DOM pieces `setupGui` creates: one `Train i` button and
one info `span` per class. Buttons are recorded by the class index `i` whose
mousedown/mouseup listeners they carry. -/
structure GuiState where
  buttons : List Nat
  infoTexts : List InfoText
deriving DecidableEq, Repr

/-- `infoText.innerText = ' No examples added'` (camera.js line 102); the
font weight starts at the default (normal). -/
def initialInfoText : InfoText :=
  { text := " No examples added", fontWeight := "normal" }

instance : Inhabited InfoText :=
  ⟨initialInfoText⟩

/-- `setupGui` (camera.js lines 84-106): for `i` in `0..NUM_CLASSES-1`,
append one button (with its listeners) and push one info text. -/
def setupGui : GuiState :=
  (List.range NUM_CLASSES).foldl
    (fun g i =>
      { buttons := g.buttons ++ [i]
        infoTexts := g.infoTexts ++ [initialInfoText] })
    { buttons := [], infoTexts := [] }

/-- Result of `model.predictClass`: a predicted class index and per-class
confidences. Confidences are modelled as rationals standing in for JS
numbers. -/
structure PredictionResult where
  classIndex : Nat
  confidences : List ℚ
deriving DecidableEq, Repr

/-- Modelled from the spec: the external classifier's state visible to this
demo is its per-class example counts (`ExampleCounts`, §3); the classifier
library itself is not in this repository. -/
structure Classifier where
  counts : List Nat
deriving DecidableEq, Repr

/-- Modelled from the spec: `train(frame, classIndex)` "increases that
class's example count by one" (§4.3); called `model.addImage` in camera.js
line 136. -/
def Classifier.addImage (m : Classifier) (classIndex : Nat) : Classifier :=
  { counts := m.counts.set classIndex (m.counts.getD classIndex 0 + 1) }

/-- Modelled from the spec: `exampleCounts()` returns the current per-class
counts (§4.3); called `model.getClassExampleCount()` in camera.js line 140. -/
def Classifier.getClassExampleCount (m : Classifier) : List Nat :=
  m.counts

/-- `Math.max(...exampleCount)` over a list of non-negative counts
(camera.js line 141). -/
def maxNat (l : List Nat) : Nat :=
  l.foldl max 0

/-- Outcome of a settled JS promise: resolved with a value, or rejected. -/
inductive PResult (α : Type) : Type
  | resolved (a : α) : PResult α
  | rejected : PResult α
deriving DecidableEq, Repr

/-- `true` exactly on a rejected promise. -/
def PResult.isRejected {α : Type} : PResult α → Bool
  | .resolved _ => false
  | .rejected => true

/-- `.then(onFulfilled)` with no rejection handler: on a resolved promise
the handler runs (updating threaded state `σ`) and its return value resolves
the next promise; on a rejected promise the handler is skipped and the
rejection propagates. -/
def pThen {α β σ : Type} (p : PResult α) (f : α → σ → σ × β) (s : σ) :
    σ × PResult β :=
  match p with
  | .resolved a => let (s2, b) := f a s; (s2, .resolved b)
  | .rejected => (s, .rejected)

/-- `setWeightAt ts i w` is `infoTexts[i].style.fontWeight = w`. -/
def setWeightAt : List InfoText → Nat → String → List InfoText
  | [], _, _ => []
  | t :: ts, 0, w => { t with fontWeight := w } :: ts
  | t :: ts, n + 1, w => t :: setWeightAt ts n w

/-- `setTextAt ts i s` is `infoTexts[i].innerText = s`. -/
def setTextAt : List InfoText → Nat → String → List InfoText
  | [], _, _ => []
  | t :: ts, 0, s => { t with text := s } :: ts
  | t :: ts, n + 1, s => t :: setTextAt ts n s

/-- Printing of a JS number modelled as a rational. -/
def ratToString (q : ℚ) : String :=
  if q.den = 1 then toString q.num
  else toString q.num ++ "/" ++ toString q.den

/-- The template string `` ` ${exampleCount[i]} examples - ${conf}%` `` of
camera.js line 155, with `conf = res.confidences[i] * 100` (line 154). -/
def infoTextString (count : Nat) (confidence : ℚ) : String :=
  " " ++ toString count ++ " examples - " ++ ratToString (confidence * 100) ++ "%"

/-- One iteration of the loop in the first `.then` callback (camera.js
lines 144-157): set the font weight at `i` to bold on the predicted class
and normal elsewhere, then overwrite the info text at `i` only when
`exampleCount[i] > 0`. -/
def updateClassDisplay (exampleCount : List Nat) (res : PredictionResult)
    (ts : List InfoText) (i : Nat) : List InfoText :=
  let ts1 :=
    if res.classIndex == i then setWeightAt ts i "bold"
    else setWeightAt ts i "normal"
  if exampleCount.getD i 0 > 0 then
    setTextAt ts1 i (infoTextString (exampleCount.getD i 0)
      (res.confidences.getD i 0))
  else ts1

/-- The body of the first `.then` callback (camera.js lines 143-158): the
update loop over `i` in `0..NUM_CLASSES-1`. -/
def onPredictGui (exampleCount : List Nat) (res : PredictionResult)
    (ts : List InfoText) : List InfoText :=
  (List.range NUM_CLASSES).foldl (updateClassDisplay exampleCount res) ts

/-- The promise chain `model.predictClass(image).then(res => ...).then(() =>
image.dispose())` (camera.js lines 142-160), threading the info texts and a
count of `image.dispose()` calls. `outcome` is how the `predictClass`
promise settles. -/
def predictBranch (exampleCount : List Nat)
    (outcome : PResult PredictionResult) (ts : List InfoText) :
    List InfoText × Nat :=
  let s0 : List InfoText × Nat := (ts, 0)
  let (s1, p1) := pThen outcome
    (fun res s => ((onPredictGui exampleCount res s.1, s.2), ())) s0
  let (s2, _) := pThen p1 (fun _ s => ((s.1, s.2 + 1), ())) s1
  s2

/-- The mutable state the demo page keeps across ticks: the armed class
(`let training = -1`, camera.js line 32), the classifier, and the info
texts. -/
structure DemoState where
  training : Int
  model : Classifier
  infoTexts : List InfoText
deriving DecidableEq, Repr

/-- Observable order of the synchronous steps of one `animate` tick. -/
inductive Event : Type
  | statsBegin : Event
  | capture : Event
  | train (k : Int) : Event
  | readCounts : Event
  | predictIssued : Event
  | statsEnd : Event
  | schedule : Event
deriving DecidableEq, Repr

/-- What one `animate` tick produces: the new page state, how many times the
captured frame was disposed, whether `predictClass` was invoked, and the
trace of the tick's synchronous steps. -/
structure TickResult where
  state : DemoState
  disposeCount : Nat
  predictCalled : Bool
  events : List Event
deriving Repr

/-- The training step of a tick (camera.js lines 134-137): if a button is
held (`training != -1`), `model.addImage(image, training)`. -/
def modelAfterTrain (st : DemoState) : Classifier :=
  if st.training != -1 then st.model.addImage st.training.toNat
  else st.model

/-- `animate` (camera.js lines 127-168): capture a frame; if a button is
held add the frame to the classifier; read the example counts; if any is
positive run the `predictClass` promise chain, else dispose the frame
immediately; finally `requestAnimationFrame(animate)`. `outcome` is how the
(asynchronous) `predictClass` call settles when it is issued. -/
def animate (st : DemoState) (outcome : PResult PredictionResult) :
    TickResult :=
  let model2 := modelAfterTrain st
  let exampleCount := model2.getClassExampleCount
  let doPredict : Bool := decide (maxNat exampleCount > 0)
  let tsd :=
    if doPredict then predictBranch exampleCount outcome st.infoTexts
    else (st.infoTexts, 1)
  { state := { training := st.training, model := model2, infoTexts := tsd.1 }
    disposeCount := tsd.2
    predictCalled := doPredict
    events :=
      [Event.statsBegin, Event.capture]
        ++ (if st.training != -1 then [Event.train st.training] else [])
        ++ [Event.readCounts]
        ++ (if doPredict then [Event.predictIssued] else [])
        ++ [Event.statsEnd, Event.schedule] }

/-- The operations that mutate the page's cross-tick state: the mousedown
and mouseup listeners `setupGui` installs on the button of class `i`
(camera.js lines 97-98), and one `animate` tick settling with `o`. -/
inductive UIEvent : Type
  | mousedown (i : Nat) : UIEvent
  | mouseup (i : Nat) : UIEvent
  | tick (o : PResult PredictionResult) : UIEvent

/-- Effect of one operation on the page state: `mousedown` on button `i`
runs `() => training = i`, `mouseup` runs `() => training = -1`, and a tick
runs `animate`. -/
def step (st : DemoState) (e : UIEvent) : DemoState :=
  match e with
  | .mousedown i => { st with training := (i : Int) }
  | .mouseup _ => { st with training := -1 }
  | .tick o => (animate st o).state

/-- The page state right after `bindPage` set everything up: `training` is
`-1` (camera.js line 32), the freshly loaded classifier has no examples
(modelled from the spec: `load` returns an empty classifier), and the info
texts are the ones `setupGui` pushed. -/
def initialState : DemoState :=
  { training := -1
    model := { counts := List.replicate NUM_CLASSES 0 }
    infoTexts := setupGui.infoTexts }

/-- Run a sequence of UI events / ticks from the initial page state. -/
def run (es : List UIEvent) : DemoState :=
  es.foldl step initialState

/-- An event the page can actually deliver: press and release events come
only from the buttons `setupGui` created (one per class index it looped
over); ticks are always possible. -/
def ValidEvent : UIEvent → Prop
  | .mousedown i => i ∈ setupGui.buttons
  | .mouseup i => i ∈ setupGui.buttons
  | .tick _ => True

/-- The armed-class invariant: `training` is the `-1` sentinel or a class
index in `[0, NUM_CLASSES)`. -/
def TrainingOK (t : Int) : Prop :=
  t = -1 ∨ (0 ≤ t ∧ t < (NUM_CLASSES : Int))

/-! ### Page startup (`bindPage`, `setupCamera`) -/

/-- The host capabilities `setupCamera` probes: whether
`navigator.mediaDevices` exists and whether it has `getUserMedia`
(camera.js line 53). -/
structure Env where
  hasMediaDevices : Bool
  hasGetUserMedia : Bool
deriving DecidableEq, Repr

/-- The message of the error `setupCamera` throws when media capture is
unavailable (camera.js lines 54-55); the spec calls this failure
`UnsupportedEnvironmentError`. -/
def unsupportedEnvironmentMessage : String :=
  "Browser API navigator.mediaDevices.getUserMedia not available"

/-- The fallback text `bindPage` writes into the info element on camera
failure (camera.js lines 191-192, two concatenated literals with no space
between them). -/
def cameraFallbackMessage : String :=
  "this browser does not support video capture," ++
    "or this device does not have a camera"

/-- `setupCamera` (camera.js lines 52-78) restricted to the capability
check the claims are about: throws when `!navigator.mediaDevices ||
!navigator.mediaDevices.getUserMedia`, otherwise acquires the stream. -/
def setupCamera (env : Env) : Except String Unit :=
  if !env.hasMediaDevices || !env.hasGetUserMedia then
    Except.error unsupportedEnvironmentMessage
  else
    Except.ok ()

/-- The DOM state `bindPage` manipulates: display styles of the loading,
main and info elements, the info element's text, the GUI `setupGui` built,
and whether the FPS panel was added and the animation loop started. -/
structure PageState where
  loadingDisplay : String
  mainDisplay : String
  infoDisplay : String
  infoText : String
  gui : GuiState
  fpsShown : Bool
  animationStarted : Bool
deriving DecidableEq, Repr

/-- The page before `bindPage` runs. Modelled from the spec: the HTML is not
in the repository; §6 has the loading indicator initially visible and the
info element hidden until a camera failure makes it visible. -/
def initialPage : PageState :=
  { loadingDisplay := "block"
    mainDisplay := "none"
    infoDisplay := "none"
    infoText := ""
    gui := { buttons := [], infoTexts := [] }
    fpsShown := false
    animationStarted := false }

/-- `bindPage` (camera.js lines 174-199): load the model, reveal the main
container, build the GUI and FPS panel, then try the camera; on failure show
the fallback message in the info element and re-throw; on success start the
animation loop. Returns the final page state and the normal/error outcome. -/
def bindPage (env : Env) : PageState × Except String Unit :=
  let st := initialPage
  let st := { st with loadingDisplay := "none", mainDisplay := "block" }
  let st := { st with gui := setupGui }
  let st := { st with fpsShown := true }
  match setupCamera env with
  | .error e =>
    ({ st with infoText := cameraFallbackMessage, infoDisplay := "block" },
      Except.error e)
  | .ok _ =>
    ({ st with animationStarted := true }, Except.ok ())

/-! ### Helper lemmas -/

theorem foldl_max_pos (l : List Nat) : ∀ a : Nat,
    0 < l.foldl max a ↔ 0 < a ∨ ∃ c ∈ l, 0 < c := by
  induction l with
  | nil => intro a; simp
  | cons x xs ih =>
    intro a
    simp only [List.foldl, ih, lt_max_iff, List.mem_cons]
    constructor
    · rintro (⟨h | h⟩ | ⟨c, hc, hcpos⟩)
      · exact Or.inl h
      · exact Or.inr ⟨x, Or.inl rfl, h⟩
      · exact Or.inr ⟨c, Or.inr hc, hcpos⟩
    · rintro (h | ⟨c, rfl | hc, hcpos⟩)
      · exact Or.inl (Or.inl h)
      · exact Or.inl (Or.inr hcpos)
      · exact Or.inr ⟨c, hc, hcpos⟩

theorem maxNat_pos (l : List Nat) : 0 < maxNat l ↔ ∃ c ∈ l, 0 < c := by
  simpa using foldl_max_pos l 0

theorem setWeightAt_length (ts : List InfoText) : ∀ (i : Nat) (w : String),
    (setWeightAt ts i w).length = ts.length := by
  induction ts with
  | nil => intro i w; rfl
  | cons t ts ih =>
    intro i w
    cases i with
    | zero => rfl
    | succ n => simpa [setWeightAt] using ih n w

theorem setTextAt_length (ts : List InfoText) : ∀ (i : Nat) (s : String),
    (setTextAt ts i s).length = ts.length := by
  induction ts with
  | nil => intro i s; rfl
  | cons t ts ih =>
    intro i s
    cases i with
    | zero => rfl
    | succ n => simpa [setTextAt] using ih n s

theorem updateClassDisplay_length (ec : List Nat) (res : PredictionResult)
    (ts : List InfoText) (i : Nat) :
    (updateClassDisplay ec res ts i).length = ts.length := by
  simp only [updateClassDisplay]
  split_ifs <;> simp [setWeightAt_length, setTextAt_length]

theorem onPredictGui_length (ec : List Nat) (res : PredictionResult)
    (ts : List InfoText) :
    (onPredictGui ec res ts).length = ts.length := by
  unfold onPredictGui
  generalize List.range NUM_CLASSES = l
  induction l generalizing ts with
  | nil => rfl
  | cons i l ih => rw [List.foldl_cons, ih, updateClassDisplay_length]

theorem predictBranch_resolved (ec : List Nat) (res : PredictionResult)
    (ts : List InfoText) :
    predictBranch ec (PResult.resolved res) ts = (onPredictGui ec res ts, 1) :=
  rfl

theorem predictBranch_rejected (ec : List Nat) (ts : List InfoText) :
    predictBranch ec PResult.rejected ts = (ts, 0) :=
  rfl

theorem animate_state_training (st : DemoState)
    (o : PResult PredictionResult) :
    (animate st o).state.training = st.training :=
  rfl

theorem animate_state_model (st : DemoState) (o : PResult PredictionResult) :
    (animate st o).state.model = modelAfterTrain st :=
  rfl

theorem animate_predictCalled (st : DemoState)
    (o : PResult PredictionResult) :
    (animate st o).predictCalled =
      decide (0 < maxNat (modelAfterTrain st).counts) :=
  rfl

/-! ### Claim theorems -/

/-- C1: on every tick, `predictClass` is invoked iff at least one per-class
example count (as the loop reads them, after the optional training step) is
positive; in particular with all counts 0 predict is never invoked, so the
classifier's zero-example failure branch is unreachable from this loop. -/
theorem predict_guarded_by_examples (st : DemoState)
    (o : PResult PredictionResult) :
    (animate st o).predictCalled = true ↔
      ∃ c ∈ (animate st o).state.model.counts, 0 < c := by
  rw [animate_predictCalled, decide_eq_true_eq, maxNat_pos]
  exact Iff.rfl

/-- C2 counterexample: a tick whose `predictClass` promise rejects disposes
the captured frame zero times, not exactly once — both `.then` handlers,
including `() => image.dispose()`, are skipped on rejection. -/
theorem frame_release_cex :
    (animate ⟨-1, ⟨[1, 0, 0]⟩, setupGui.infoTexts⟩
        PResult.rejected).predictCalled = true ∧
      (animate ⟨-1, ⟨[1, 0, 0]⟩, setupGui.infoTexts⟩
        PResult.rejected).disposeCount = 0 :=
  ⟨rfl, rfl⟩

/-- C2 amended: the frame is disposed exactly once on every exit path of a
tick except the one where the issued `predictClass` promise rejects, on
which it is disposed zero times (the dispose handler is skipped by the
rejection). -/
theorem frame_release_amended (st : DemoState)
    (o : PResult PredictionResult) :
    (animate st o).disposeCount =
      if (animate st o).predictCalled && o.isRejected then 0 else 1 := by
  cases hb : decide
      (maxNat (Classifier.getClassExampleCount (modelAfterTrain st)) > 0) with
  | false => cases o <;> simp [animate, hb, PResult.isRejected]
  | true =>
    cases o <;>
      simp [animate, hb, predictBranch_resolved, predictBranch_rejected,
        PResult.isRejected]

/-- C6: each tick performs, in order, frame capture, then the optional
single train call, then the counts read and the optional predict issue, and
then unconditionally schedules the next tick as the last synchronous step;
the synchronous trace (including the scheduling) does not depend on how the
asynchronous predict settles. -/
theorem tick_step_order (st : DemoState) (o : PResult PredictionResult) :
    ((animate st o).events =
      [Event.statsBegin, Event.capture]
        ++ (if st.training != -1 then [Event.train st.training] else [])
        ++ [Event.readCounts]
        ++ (if (animate st o).predictCalled then [Event.predictIssued]
            else [])
        ++ [Event.statsEnd, Event.schedule]) ∧
    (animate st o).events.getLast? = some Event.schedule ∧
    ∀ o' : PResult PredictionResult,
      (animate st o').events = (animate st o).events := by
  refine ⟨rfl, ?_, fun o' => rfl⟩
  by_cases h1 : st.training != -1 <;>
    cases hb : decide
      (maxNat (Classifier.getClassExampleCount (modelAfterTrain st)) > 0) <;>
    simp [animate, h1, hb]

/-- C8: the armed class starts as `-1` (none); pressing button `i` sets it
to `i`; releasing any button resets it to `-1`; and an `animate` tick — the
only other operation on the page state — leaves it unchanged. -/
theorem training_state_lifecycle :
    initialState.training = -1 ∧
    (∀ (st : DemoState) (i : Nat),
      (step st (UIEvent.mousedown i)).training = (i : Int)) ∧
    (∀ (st : DemoState) (i : Nat),
      (step st (UIEvent.mouseup i)).training = -1) ∧
    (∀ (st : DemoState) (o : PResult PredictionResult),
      (step st (UIEvent.tick o)).training = st.training) :=
  ⟨rfl, fun _ _ => rfl, fun _ _ => rfl, fun _ _ => rfl⟩

/-- C10: `setupGui` creates exactly `NUM_CLASSES` info-text elements, every
index the display-update loop touches (`0..NUM_CLASSES-1`) is within
bounds, and no tick ever changes the number of info texts. -/
theorem info_texts_in_bounds :
    setupGui.infoTexts.length = NUM_CLASSES ∧
    (∀ i ∈ List.range NUM_CLASSES, i < setupGui.infoTexts.length) ∧
    ∀ (st : DemoState) (o : PResult PredictionResult),
      (animate st o).state.infoTexts.length = st.infoTexts.length := by
  refine ⟨rfl, by decide, fun st o => ?_⟩
  cases hb : decide
      (maxNat (Classifier.getClassExampleCount (modelAfterTrain st)) > 0) with
  | false => simp [animate, hb]
  | true =>
    cases o <;>
      simp [animate, hb, predictBranch_resolved, predictBranch_rejected,
        onPredictGui_length]

theorem modelAfterTrain_armed (st : DemoState) (hk : st.training ≠ -1) :
    modelAfterTrain st = st.model.addImage st.training.toNat := by
  simp [modelAfterTrain, hk]

theorem modelAfterTrain_none (st : DemoState) (hk : st.training = -1) :
    modelAfterTrain st = st.model := by
  simp [modelAfterTrain, hk]

/-- C3: on a tick whose armed class is `k ∈ [0, NUM_CLASSES)`, exactly one
train call with class `k` happens and class `k`'s example count grows by
exactly one while the other counts are untouched; on a tick with no armed
class (`training = -1`) no train call happens and no count changes. -/
theorem armed_tick_trains_once (st : DemoState) (o : PResult PredictionResult)
    (hlen : st.model.counts.length = NUM_CLASSES) :
    (∀ k : Int, st.training = k → 0 ≤ k → k < (NUM_CLASSES : Int) →
      (animate st o).events.count (Event.train k) = 1 ∧
      (animate st o).state.model.counts.getD k.toNat 0 =
        st.model.counts.getD k.toNat 0 + 1 ∧
      ∀ j < NUM_CLASSES, j ≠ k.toNat →
        (animate st o).state.model.counts.getD j 0 =
          st.model.counts.getD j 0) ∧
    (st.training = -1 →
      (∀ k : Int, (animate st o).events.count (Event.train k) = 0) ∧
      (animate st o).state.model.counts = st.model.counts) := by
  obtain ⟨a, b, c, habc⟩ := List.length_eq_three.mp hlen
  constructor
  · intro k hk hk0 hk3
    have h3 : (NUM_CLASSES : Int) = 3 := rfl
    rw [h3] at hk3
    have hne : st.training ≠ -1 := by omega
    have hmodel := modelAfterTrain_armed st hne
    interval_cases k
    all_goals refine ⟨?_, ?_, ?_⟩
    all_goals first
      | (cases hb : decide
            (maxNat (Classifier.getClassExampleCount (modelAfterTrain st))
              > 0) <;> (simp only [animate, hk, hb]; decide))
      | (intro j hj hjk
         simp only [animate_state_model, hmodel, hk]
         have hj3 : j < 3 := hj
         interval_cases j <;>
           simp_all [Classifier.addImage, habc, Int.toNat])
      | (simp only [animate_state_model, hmodel, hk]
         simp [Classifier.addImage, habc, Int.toNat])
  · intro hk
    have hmodel := modelAfterTrain_none st hk
    refine ⟨fun k => ?_, by rw [animate_state_model, hmodel]⟩
    cases hb : decide
        (maxNat (Classifier.getClassExampleCount (modelAfterTrain st))
          > 0) <;>
      simp [animate, hb, hk]

/-- Witness for C3: with class 0 armed and an empty classifier, one tick
raises class 0's example count from 0 to 1. -/
theorem armed_tick_trains_once_witness :
    (animate ⟨0, ⟨[0, 0, 0]⟩, []⟩
        PResult.rejected).state.model.counts.getD ((0 : Int).toNat) 0 =
      (⟨0, ⟨[0, 0, 0]⟩, []⟩ : DemoState).model.counts.getD
        ((0 : Int).toNat) 0 + 1 :=
  ((armed_tick_trains_once ⟨0, ⟨[0, 0, 0]⟩, []⟩ PResult.rejected rfl).1 0
    rfl (by decide) (by decide)).2.1

/-- C7: when the host lacks media capture (`navigator.mediaDevices` or its
`getUserMedia` missing), `bindPage` surfaces the camera failure: the info
element becomes visible with the fallback message, the error is re-raised
with `setupCamera`'s message, and the GUI buttons built before camera setup
are still all present. -/
theorem camera_unsupported_flow (env : Env)
    (h : env.hasMediaDevices = false ∨ env.hasGetUserMedia = false) :
    (bindPage env).2 = Except.error unsupportedEnvironmentMessage ∧
    (bindPage env).1.infoDisplay = "block" ∧
    (bindPage env).1.infoText = cameraFallbackMessage ∧
    (bindPage env).1.gui.buttons.length = NUM_CLASSES ∧
    (bindPage env).1.mainDisplay = "block" := by
  have hc : setupCamera env = Except.error unsupportedEnvironmentMessage := by
    rcases h with h | h <;> simp [setupCamera, h]
  have hg : setupGui.buttons.length = NUM_CLASSES := rfl
  refine ⟨?_, ?_, ?_, ?_, ?_⟩ <;>
    simp [bindPage, hc, initialPage, hg]

/-- Witness for C7: a host with neither `mediaDevices` nor `getUserMedia`. -/
theorem camera_unsupported_flow_witness :
    (bindPage ⟨false, false⟩).2 =
      Except.error unsupportedEnvironmentMessage ∧
    (bindPage ⟨false, false⟩).1.infoDisplay = "block" ∧
    (bindPage ⟨false, false⟩).1.infoText = cameraFallbackMessage ∧
    (bindPage ⟨false, false⟩).1.gui.buttons.length = NUM_CLASSES ∧
    (bindPage ⟨false, false⟩).1.mainDisplay = "block" :=
  camera_unsupported_flow ⟨false, false⟩ (Or.inl rfl)

/-- Per-index summary of one pass of the display-update loop: the font
weight becomes bold exactly on the predicted class, and the text is
overwritten only when the class has examples. -/
def updInfo (exampleCount : List Nat) (res : PredictionResult) (i : Nat)
    (t : InfoText) : InfoText :=
  { text :=
      if exampleCount.getD i 0 > 0 then
        infoTextString (exampleCount.getD i 0) (res.confidences.getD i 0)
      else t.text
    fontWeight := if res.classIndex == i then "bold" else "normal" }

theorem onPredictGui_eq (ec : List Nat) (res : PredictionResult)
    (t0 t1 t2 : InfoText) :
    onPredictGui ec res [t0, t1, t2] =
      [updInfo ec res 0 t0, updInfo ec res 1 t1, updInfo ec res 2 t2] := by
  have hr : List.range NUM_CLASSES = [0, 1, 2] := rfl
  simp only [onPredictGui, hr, List.foldl_cons, List.foldl_nil]
  by_cases h0 : res.classIndex == 0 <;>
  by_cases h1 : res.classIndex == 1 <;>
  by_cases h2 : res.classIndex == 2 <;>
  by_cases g0 : 0 < ec[0]?.getD 0 <;>
  by_cases g1 : 0 < ec[1]?.getD 0 <;>
  by_cases g2 : 0 < ec[2]?.getD 0 <;>
  simp [updateClassDisplay, updInfo, setWeightAt, setTextAt,
    h0, h1, h2, g0, g1, g2]

theorem animate_infoTexts_resolved (st : DemoState) (res : PredictionResult)
    (hp : (animate st (PResult.resolved res)).predictCalled = true) :
    (animate st (PResult.resolved res)).state.infoTexts =
      onPredictGui (modelAfterTrain st).counts res st.infoTexts := by
  have hb : decide
      (maxNat (Classifier.getClassExampleCount (modelAfterTrain st)) > 0)
      = true := hp
  have hpos : 0 < maxNat (modelAfterTrain st).counts := by
    simpa [Classifier.getClassExampleCount] using hb
  simp [animate, predictBranch_resolved, Classifier.getClassExampleCount,
    hpos]

/-- C4 counterexample: after a completed prediction with class 1 at count
0, class 1's status text was not set to "no examples": it is still the
initial " No examples added" (the code's update loop writes the text only
when the count is positive). -/
theorem info_text_zero_count_cex :
    (animate ⟨-1, ⟨[1, 0, 0]⟩, setupGui.infoTexts⟩
        (PResult.resolved ⟨0, [1, 0, 0]⟩)).predictCalled = true ∧
    (animate ⟨-1, ⟨[1, 0, 0]⟩, setupGui.infoTexts⟩
        (PResult.resolved ⟨0, [1, 0, 0]⟩)).state.model.counts.getD 1 0
      = 0 ∧
    ((animate ⟨-1, ⟨[1, 0, 0]⟩, setupGui.infoTexts⟩
        (PResult.resolved ⟨0, [1, 0, 0]⟩)).state.infoTexts.getD 1
        default).text = " No examples added" ∧
    " No examples added" ≠ "no examples" :=
  ⟨rfl, rfl, rfl, by decide⟩

/-- C4 amended: in the display update after a completed prediction, a class
with a positive example count gets its text set to
`" {count} examples - {confidence*100}%"`, while a class whose count is 0
keeps its previous text unchanged (it is never set to "no examples"). -/
theorem info_text_update (st : DemoState) (res : PredictionResult)
    (hlen : st.infoTexts.length = NUM_CLASSES)
    (hp : (animate st (PResult.resolved res)).predictCalled = true) :
    ∀ i < NUM_CLASSES,
      ((animate st (PResult.resolved res)).state.infoTexts.getD i
          default).text =
        if 0 < (animate st
            (PResult.resolved res)).state.model.counts.getD i 0 then
          infoTextString
            ((animate st (PResult.resolved res)).state.model.counts.getD i 0)
            (res.confidences.getD i 0)
        else (st.infoTexts.getD i default).text := by
  obtain ⟨t0, t1, t2, hts⟩ := List.length_eq_three.mp hlen
  have hinfo := animate_infoTexts_resolved st res hp
  rw [hts, onPredictGui_eq] at hinfo
  intro i hi
  have hi3 : i < 3 := hi
  rw [hinfo, animate_state_model, hts]
  interval_cases i <;> simp [updInfo]

/-- Witness for C4 (amended): a concrete prediction over counts `[5, 0, 0]`
sets class 0's text from its count and confidence. -/
theorem info_text_update_witness :
    ((animate ⟨-1, ⟨[5, 0, 0]⟩, setupGui.infoTexts⟩
        (PResult.resolved ⟨0, [1, 0, 0]⟩)).state.infoTexts.getD 0
        default).text =
      if 0 < (animate ⟨-1, ⟨[5, 0, 0]⟩, setupGui.infoTexts⟩
          (PResult.resolved ⟨0, [1, 0, 0]⟩)).state.model.counts.getD 0 0 then
        infoTextString
          ((animate ⟨-1, ⟨[5, 0, 0]⟩, setupGui.infoTexts⟩
            (PResult.resolved ⟨0, [1, 0, 0]⟩)).state.model.counts.getD 0 0)
          ((⟨0, [1, 0, 0]⟩ : PredictionResult).confidences.getD 0 0)
      else ((⟨-1, ⟨[5, 0, 0]⟩, setupGui.infoTexts⟩ :
          DemoState).infoTexts.getD 0 default).text :=
  info_text_update ⟨-1, ⟨[5, 0, 0]⟩, setupGui.infoTexts⟩ ⟨0, [1, 0, 0]⟩
    rfl (by rfl) 0 (by decide)

/-- C5: after a completed prediction whose predicted index is a valid class
index, the predicted class's status text is bold and every other class's is
normal; hence exactly one info text carries bold weight. -/
theorem predicted_class_bold (st : DemoState) (res : PredictionResult)
    (hlen : st.infoTexts.length = NUM_CLASSES)
    (hci : res.classIndex < NUM_CLASSES)
    (hp : (animate st (PResult.resolved res)).predictCalled = true) :
    (∀ i < NUM_CLASSES,
      ((animate st (PResult.resolved res)).state.infoTexts.getD i
          default).fontWeight =
        if i = res.classIndex then "bold" else "normal") ∧
    ((animate st (PResult.resolved res)).state.infoTexts.filter
        (fun t => t.fontWeight == "bold")).length = 1 := by
  obtain ⟨ci, conf⟩ := res
  obtain ⟨t0, t1, t2, hts⟩ := List.length_eq_three.mp hlen
  have hinfo := animate_infoTexts_resolved st ⟨ci, conf⟩ hp
  rw [hts, onPredictGui_eq] at hinfo
  have hc3 : ci < 3 := hci
  constructor
  · intro i hi
    have hi3 : i < 3 := hi
    rw [hinfo]
    interval_cases ci <;> interval_cases i <;> simp [updInfo]
  · rw [hinfo]
    interval_cases ci <;> simp [updInfo, List.filter]

/-- Witness for C5: a concrete completed prediction of class 0 leaves
exactly one bold info text. -/
theorem predicted_class_bold_witness :
    ((animate ⟨-1, ⟨[5, 0, 0]⟩, setupGui.infoTexts⟩
        (PResult.resolved ⟨0, [1, 0, 0]⟩)).state.infoTexts.filter
        (fun t => t.fontWeight == "bold")).length = 1 :=
  (predicted_class_bold ⟨-1, ⟨[5, 0, 0]⟩, setupGui.infoTexts⟩
    ⟨0, [1, 0, 0]⟩ rfl (by decide) (by rfl)).2

theorem setupGui_buttons : setupGui.buttons = [0, 1, 2] :=
  rfl

theorem step_preserves_trainingOK (st : DemoState) (e : UIEvent)
    (hv : ValidEvent e) (h : TrainingOK st.training) :
    TrainingOK (step st e).training := by
  cases e with
  | mousedown i =>
    have hi : i ∈ setupGui.buttons := hv
    rw [setupGui_buttons] at hi
    simp only [List.mem_cons, List.mem_singleton, List.not_mem_nil] at hi
    rcases hi with rfl | rfl | rfl | hi
    · exact Or.inr (show (0 : Int) ≤ ((0 : Nat) : Int) ∧ ((0 : Nat) : Int)
        < (NUM_CLASSES : Int) from by decide)
    · exact Or.inr (show (0 : Int) ≤ ((1 : Nat) : Int) ∧ ((1 : Nat) : Int)
        < (NUM_CLASSES : Int) from by decide)
    · exact Or.inr (show (0 : Int) ≤ ((2 : Nat) : Int) ∧ ((2 : Nat) : Int)
        < (NUM_CLASSES : Int) from by decide)
    · exact absurd hi (by simp)
  | mouseup i => exact Or.inl rfl
  | tick o => exact h

theorem run_trainingOK_aux (es : List UIEvent) : ∀ st : DemoState,
    TrainingOK st.training → (∀ e ∈ es, ValidEvent e) →
    TrainingOK ((es.foldl step st).training) := by
  induction es with
  | nil => intro st h _; exact h
  | cons e es ih =>
    intro st h hv
    rw [List.foldl_cons]
    exact ih (step st e)
      (step_preserves_trainingOK st e (hv e (by simp)) h)
      (fun f hf => hv f (by simp [hf]))

theorem train_event_mem (st : DemoState) (o : PResult PredictionResult)
    (k : Int) (hk : Event.train k ∈ (animate st o).events) :
    st.training ≠ -1 ∧ k = st.training := by
  cases hb : decide
      (maxNat (Classifier.getClassExampleCount (modelAfterTrain st))
        > 0) <;>
    cases h1 : (st.training != -1) <;>
    simp only [animate, hb, h1] at hk <;>
    simp_all [bne_iff_ne]

/-- C9: from the initial page state, any sequence of deliverable UI events
and ticks keeps the armed class equal to the `-1` sentinel or a class index
in `[0, NUM_CLASSES)`; consequently every train call a tick issues carries a
valid class index. -/
theorem training_index_invariant (es : List UIEvent)
    (hv : ∀ e ∈ es, ValidEvent e) :
    TrainingOK (run es).training ∧
    ∀ (o : PResult PredictionResult) (k : Int),
      Event.train k ∈ (animate (run es) o).events →
      0 ≤ k ∧ k < (NUM_CLASSES : Int) := by
  have hrun : TrainingOK (run es).training :=
    run_trainingOK_aux es initialState (Or.inl rfl) hv
  refine ⟨hrun, fun o k hk => ?_⟩
  obtain ⟨hne, rfl⟩ := train_event_mem (run es) o k hk
  rcases hrun with h | h
  · exact absurd h hne
  · exact h

/-- Witness for C9: after pressing the Train 2 button, the armed class is
still a sentinel-or-valid index. -/
theorem training_index_invariant_witness :
    TrainingOK (run [UIEvent.mousedown 2]).training :=
  (training_index_invariant [UIEvent.mousedown 2]
    (by
      intro e he
      simp only [List.mem_singleton] at he
      subst he
      show (2 : Nat) ∈ setupGui.buttons
      decide)).1

end CameraDemo
